import Mathlib

/-!
Shallow embedding of the N·Attune assistive-communication script
(src/script.js): signal extraction, gesture classification, the suggestion
rule engine, the commit state machine, the TTS cooldown policy and the
conversation log.  Times are modelled as `Int` milliseconds, scores as `ℚ`.
DOM rendering, audio playback and the MediaPipe bootstrap are outside the
model; the evaluation tick threads an explicit state record instead of the
script's global `state` object.
-/

namespace Attune

/-- CONFIG.STABILITY_TIME (ms). -/
def STABILITY_TIME : Int := 800

/-- CONFIG.LOCK_TIME (ms). -/
def LOCK_TIME : Int := 4000

/-- CONFIG.TTS_COOLDOWN (ms). -/
def TTS_COOLDOWN : Int := 4000

/-- CONFIG.REPEAT_COOLDOWN (ms). -/
def REPEAT_COOLDOWN : Int := 10000

/-- CONFIG.MOUTH_OPEN_THRESHOLD. -/
def MOUTH_OPEN_THRESHOLD : ℚ := 15/100

/-- CONFIG.SOUND_SPIKE_THRESHOLD. -/
def SOUND_SPIKE_THRESHOLD : ℚ := 4/10

/-- CONFIG.NOD_THRESHOLD. -/
def NOD_THRESHOLD : ℚ := 15/1000

/-- CONFIG.SHAKE_THRESHOLD. -/
def SHAKE_THRESHOLD : ℚ := 2/100

/-- CONFIG.GESTURE_FRAMES. -/
def GESTURE_FRAMES : Nat := 10

/-- CONFIG.MAX_LOG_ITEMS. -/
def MAX_LOG_ITEMS : Nat := 50

/-- Head gesture classification result (`state.headGesture`). -/
inductive Gesture where
  | still
  | nod
  | shake
deriving DecidableEq, Repr

/-- Dominant emotion label (`state.currentEmotion`). -/
inductive Emotion where
  | happy
  | sad
  | surprised
  | neutral
deriving DecidableEq, Repr

/-- The `state.emotionScores` record. -/
structure EmotionScores where
  happy : ℚ
  sad : ℚ
  surprised : ℚ
  neutral : ℚ
deriving DecidableEq, Repr

/-- A normalized 2D face landmark (only `x` and `y` are read). -/
structure Landmark where
  x : ℚ
  y : ℚ
deriving DecidableEq, Repr

/-- One named blendshape category with its score. -/
structure Blendshape where
  categoryName : String
  score : ℚ
deriving DecidableEq, Repr

/-- The detection result handed to `processResults`: a list of faces, each a
landmark list, and a list of per-face blendshape category lists. -/
structure FaceResults where
  faceLandmarks : List (List Landmark)
  faceBlendshapes : List (List Blendshape)
deriving DecidableEq, Repr

/-- A `state.noseHistory` sample: nose position with its timestamp. -/
structure NosePoint where
  x : ℚ
  y : ℚ
  time : Int
deriving DecidableEq, Repr

/-- A conversation log entry as built by `addToLog` (the ISO timestamp string
is represented by the numeric `id` timestamp it is derived from). -/
structure LogEntry where
  id : Int
  message : String
  category : String
  patient : String
deriving DecidableEq, Repr

/-- The mutable fields of the script's global `state` object that the core
logic reads or writes, plus `persistedLog` standing for the localStorage copy
written by `savePatientLog`. -/
structure MachineState where
  soundLevel : ℚ
  smileScore : ℚ
  mouthOpenScore : ℚ
  movementScore : ℚ
  headGesture : Gesture
  noseHistory : List NosePoint
  currentEmotion : Emotion
  emotionScores : EmotionScores
  browScore : ℚ
  eyeOpenScore : ℚ
  currentSuggestion : Option String
  suggestionStartTime : Option Int
  isLocked : Bool
  lockEndTime : Int
  lastTTSTime : Int
  lastTTSMessage : Option String
  conversationLog : List LogEntry
  persistedLog : List LogEntry
  soundEnabled : Bool
  currentPatient : String
  cameraRunning : Bool
  micRunning : Bool
deriving DecidableEq, Repr

/-- The initial value of the script's `state` object (null timestamps are 0,
the persisted log starts empty). -/
def initState : MachineState where
  soundLevel := 0
  smileScore := 0
  mouthOpenScore := 0
  movementScore := 0
  headGesture := Gesture.still
  noseHistory := []
  currentEmotion := Emotion.neutral
  emotionScores := ⟨0, 0, 0, 0⟩
  browScore := 0
  eyeOpenScore := 0
  currentSuggestion := none
  suggestionStartTime := none
  isLocked := false
  lockEndTime := 0
  lastTTSTime := 0
  lastTTSMessage := none
  conversationLog := []
  persistedLog := []
  soundEnabled := true
  currentPatient := ""
  cameraRunning := false
  micRunning := false

/-- `Math.max(0, Math.min(1, v))`. -/
def clamp01 (x : ℚ) : ℚ := max 0 (min 1 x)

/-- Mouth width `Math.abs(rightCorner.x - leftCorner.x)`. -/
def mouthWidthOf (lc rc : Landmark) : ℚ := |rc.x - lc.x|

/-- Mouth height `Math.abs(lowerLip.y - upperLip.y)`. -/
def mouthHeightOf (ul ll : Landmark) : ℚ := |ll.y - ul.y|

/-- Average corner lift: mouth-center y minus the two corner y values,
averaged. -/
def cornerLiftOf (lc rc ul ll : Landmark) : ℚ :=
  let mouthCenterY := (ul.y + ll.y) / 2
  ((mouthCenterY - lc.y) + (mouthCenterY - rc.y)) / 2

/-- The landmark-based smile backup computed inside the blendshape path of
`processResults`: `clamp01((mouthRatio - 2.5) / 2 + avgCornerLift * 15)`. -/
def backupSmile (lc rc ul ll : Landmark) : ℚ :=
  clamp01 ((mouthWidthOf lc rc / (mouthHeightOf ul ll + 1/1000) - 5/2) / 2
    + cornerLiftOf lc rc ul ll * 15)

/-- The smile score of `detectSmileFromLandmarks`:
`clamp01((mouthRatio - 2) / 3 + avgCornerLift * 10)`. -/
def fallbackSmile (lc rc ul ll : Landmark) : ℚ :=
  clamp01 ((mouthWidthOf lc rc / (mouthHeightOf ul ll + 1/1000) - 2) / 3
    + cornerLiftOf lc rc ul ll * 10)

/-- The mouth-open score of `detectSmileFromLandmarks`:
`clamp01(mouthHeight * 5)`. -/
def fallbackMouthOpen (ul ll : Landmark) : ℚ := clamp01 (mouthHeightOf ul ll * 5)

/-- The `getBlendshape` helper of `processResults`: the score of the first
category with the requested name, `0` when absent. -/
def getBlendshape (n : String) (bs : List Blendshape) : ℚ :=
  match bs.find? (fun b => b.categoryName == n) with
  | some b => b.score
  | none => 0

/-- Direction of a delta against a threshold: `d > th ? 1 : d < -th ? -1 : 0`. -/
def dirSign (d th : ℚ) : Int := if th < d then 1 else if d < -th then -1 else 0

/-- The scan loop of `detectHeadGesture`: walk consecutive nose samples,
counting direction flips on each axis (a flip is a nonzero direction that
differs from the last nonzero direction). -/
def countFlips : NosePoint → List NosePoint → Int → Int → Nat → Nat → Nat × Nat
  | _, [], _, _, xc, yc => (xc, yc)
  | prev, p :: tl, lastX, lastY, xc, yc =>
    let xDir := dirSign (p.x - prev.x) SHAKE_THRESHOLD
    let yDir := dirSign (p.y - prev.y) NOD_THRESHOLD
    let xc' := if xDir ≠ 0 ∧ xDir ≠ lastX ∧ lastX ≠ 0 then xc + 1 else xc
    let yc' := if yDir ≠ 0 ∧ yDir ≠ lastY ∧ lastY ≠ 0 then yc + 1 else yc
    countFlips p tl (if xDir ≠ 0 then xDir else lastX)
      (if yDir ≠ 0 then yDir else lastY) xc' yc'

/-- `detectHeadGesture`: classify the last `GESTURE_FRAMES` nose samples;
two or more vertical flips give `nod`, else two or more horizontal flips give
`shake`, else `still`. -/
def detectHeadGesture (hist : List NosePoint) : Gesture :=
  if hist.length < GESTURE_FRAMES then Gesture.still
  else
    match hist.drop (hist.length - GESTURE_FRAMES) with
    | [] => Gesture.still
    | p :: tl =>
      let counts := countFlips p tl 0 0 0 0
      if 2 ≤ counts.2 then Gesture.nod
      else if 2 ≤ counts.1 then Gesture.shake
      else Gesture.still

/-- The no-face reset at the top of `processResults`: zero scores, still
gesture, fully neutral emotion. -/
def zeroResetSignals (st : MachineState) : MachineState :=
  { st with
    smileScore := 0
    mouthOpenScore := 0
    movementScore := 0
    headGesture := Gesture.still
    currentEmotion := Emotion.neutral
    emotionScores := (⟨0, 0, 0, 1⟩ : EmotionScores) }

/-- Push the nose tip into the history and drop samples older than 500ms,
as both extraction paths do. -/
def pushNose (now : Int) (noseTip : Landmark) (hist : List NosePoint) : List NosePoint :=
  (hist ++ [(⟨noseTip.x, noseTip.y, now⟩ : NosePoint)]).filter
    (fun p => now - 500 < p.time)

/-- Movement score from the first and last samples of the nose history:
`min(1, (|dx| + |dy|) * 5)`. -/
def movementOf (hist : List NosePoint) : ℚ :=
  let first := hist.headD ⟨0, 0, 0⟩
  let lst := hist.getLastD ⟨0, 0, 0⟩
  min 1 ((|lst.x - first.x| + |lst.y - first.y|) * 5)

/-- `detectSmileFromLandmarks`: the landmark-only fallback used when no
blendshapes are available.  Accessing a missing landmark role throws in the
script (property access on `undefined`), modelled by `Except.error`. -/
def detectSmileFromLandmarks (now : Int) (landmarks : List Landmark)
    (st : MachineState) : Except Unit MachineState :=
  match landmarks.get? 61, landmarks.get? 291, landmarks.get? 13,
      landmarks.get? 14, landmarks.get? 4 with
  | some leftCorner, some rightCorner, some upperLip, some lowerLip, some noseTip =>
    let avgCornerLift := cornerLiftOf leftCorner rightCorner upperLip lowerLip
    let smileScore := fallbackSmile leftCorner rightCorner upperLip lowerLip
    let mouthOpenScore := fallbackMouthOpen upperLip lowerLip
    let sad := max 0 (-avgCornerLift * 10)
    let surprised := mouthOpenScore * (1/2)
    let neutral := max 0 (1 - smileScore - sad)
    let emo :=
      if (1/5 : ℚ) < smileScore then Emotion.happy
      else if (1/5 : ℚ) < sad then Emotion.sad
      else Emotion.neutral
    let hist := pushNose now noseTip st.noseHistory
    let doGesture := GESTURE_FRAMES ≤ hist.length
    Except.ok { st with
      smileScore := smileScore
      mouthOpenScore := mouthOpenScore
      emotionScores := (⟨smileScore, sad, surprised, neutral⟩ : EmotionScores)
      currentEmotion := emo
      noseHistory := hist
      headGesture := if doGesture then detectHeadGesture hist else st.headGesture
      movementScore := if doGesture then movementOf hist else st.movementScore }
  | _, _, _, _, _ => Except.error ()

/-- The blendshape branch of `processResults` (landmarks available and a
nonempty blendshape list).  The landmark backup accesses can throw on a
malformed sample, modelled by `Except.error`. -/
def blendshapePath (now : Int) (landmarks : List Landmark)
    (bs : List Blendshape) (st : MachineState) : Except Unit MachineState :=
  let blendshapeSmile :=
    (getBlendshape "mouthSmileLeft" bs + getBlendshape "mouthSmileRight" bs) / 2
  match landmarks.get? 61, landmarks.get? 291, landmarks.get? 13,
      landmarks.get? 14 with
  | some leftCorner, some rightCorner, some upperLip, some lowerLip =>
    let smileScore :=
      max blendshapeSmile (backupSmile leftCorner rightCorner upperLip lowerLip)
    let frownScore :=
      (getBlendshape "mouthFrownLeft" bs + getBlendshape "mouthFrownRight" bs) / 2
    let browDown :=
      (getBlendshape "browDownLeft" bs + getBlendshape "browDownRight" bs) / 2
    let browScore :=
      (getBlendshape "browInnerUp" bs + getBlendshape "browOuterUpLeft" bs
        + getBlendshape "browOuterUpRight" bs) / 3
    let eyeOpenScore :=
      (getBlendshape "eyeWideLeft" bs + getBlendshape "eyeWideRight" bs) / 2
    let jawOpen := getBlendshape "jawOpen" bs
    let happy := min 1 (smileScore * 2)
    let sad := min 1 (frownScore * (3/2) + browDown * (1/2))
    let surprised :=
      min 1 (browScore * (4/5) + eyeOpenScore * (4/5) + jawOpen * (2/5))
    let neutral := max 0 (1 - happy - sad - surprised)
    let emo :=
      if (1/10 : ℚ) < smileScore then Emotion.happy
      else if (15/100 : ℚ) < sad then Emotion.sad
      else if (2/10 : ℚ) < surprised then Emotion.surprised
      else Emotion.neutral
    match landmarks.get? 4 with
    | some noseTip =>
      let hist := pushNose now noseTip st.noseHistory
      let doGesture := GESTURE_FRAMES ≤ hist.length
      Except.ok { st with
        smileScore := smileScore
        mouthOpenScore := jawOpen
        browScore := browScore
        eyeOpenScore := eyeOpenScore
        emotionScores := (⟨happy, sad, surprised, neutral⟩ : EmotionScores)
        currentEmotion := emo
        noseHistory := hist
        headGesture := if doGesture then detectHeadGesture hist else st.headGesture
        movementScore := if doGesture then movementOf hist else st.movementScore }
    | none => Except.error ()
  | _, _, _, _ => Except.error ()

/-- `processResults`: no face gives the zero reset; otherwise the first face's
landmarks feed either the blendshape path or the landmark-only fallback. -/
def processResults (now : Int) (res : Option FaceResults)
    (st : MachineState) : Except Unit MachineState :=
  match res with
  | none => Except.ok (zeroResetSignals st)
  | some r =>
    match r.faceLandmarks.head? with
    | none => Except.ok (zeroResetSignals st)
    | some landmarks =>
      let blendshapes := r.faceBlendshapes.headD []
      if blendshapes.isEmpty then detectSmileFromLandmarks now landmarks st
      else blendshapePath now landmarks blendshapes st

/-- The try/catch around `processResults` inside `detectFace`: an exception
from the extractor is caught at the loop boundary and the state is left as it
was for that tick. -/
def detectTick (now : Int) (res : Option FaceResults) (st : MachineState) :
    MachineState :=
  match processResults now res st with
  | Except.ok st' => st'
  | Except.error _ => st

/-- `generateSuggestion`: the ordered first-match priority list over the
current signal fields and sound level. -/
def generateSuggestion (st : MachineState) : Option String :=
  if st.headGesture = Gesture.nod then some "Yes"
  else if st.headGesture = Gesture.shake then some "No"
  else if MOUTH_OPEN_THRESHOLD < st.mouthOpenScore
      ∧ SOUND_SPIKE_THRESHOLD < st.soundLevel then some "Needs attention"
  else if (1/2 : ℚ) < st.movementScore
      ∧ SOUND_SPIKE_THRESHOLD < st.soundLevel then some "Needs a break"
  else if (8/100 : ℚ) < st.smileScore then some "Feeling happy"
  else if (15/100 : ℚ) < st.emotionScores.sad then some "Feeling sad"
  else if (2/10 : ℚ) < st.emotionScores.surprised then some "Surprised"
  else none

/-- `savePatientLog`: persist `conversationLog.slice(-MAX_LOG_ITEMS)`. -/
def savePatientLog (st : MachineState) : MachineState :=
  { st with persistedLog :=
      st.conversationLog.drop (st.conversationLog.length - MAX_LOG_ITEMS) }

/-- `addToLog`: prepend the new entry, truncate to the newest
`MAX_LOG_ITEMS` entries when over the cap, then persist. -/
def addToLog (now : Int) (message category : String) (st : MachineState) :
    MachineState :=
  let entry : LogEntry := ⟨now, message, category, st.currentPatient⟩
  let log := entry :: st.conversationLog
  let log := if MAX_LOG_ITEMS < log.length then log.take MAX_LOG_ITEMS else log
  savePatientLog { st with conversationLog := log }

/-- `commitMessage`: lock the output for `LOCK_TIME`, conditionally request
speech under the TTS cooldown/repeat policy, and append to the log.  The
returned flag records whether speech was requested. -/
def commitMessage (now : Int) (message category : String)
    (st : MachineState) : MachineState × Bool :=
  let st1 := { st with isLocked := true, lockEndTime := now + LOCK_TIME }
  let p :=
    if st1.soundEnabled then
      if TTS_COOLDOWN ≤ now - st1.lastTTSTime
          ∧ (some message ≠ st1.lastTTSMessage
            ∨ REPEAT_COOLDOWN ≤ now - st1.lastTTSTime) then
        ({ st1 with lastTTSTime := now, lastTTSMessage := some message }, true)
      else (st1, false)
    else (st1, false)
  (addToLog now message category p.1, p.2)

/-- The body of `updateSuggestion` after the lock check: restart the
stability clock on a new candidate, commit once the candidate has been stable
for `STABILITY_TIME`, clear the candidate when the suggestion is null.  The
returned flag records whether a commit fired. -/
def evaluateCandidate (now : Int) (sugg : Option String)
    (st : MachineState) : MachineState × Bool :=
  match sugg with
  | some s =>
    if some s ≠ st.currentSuggestion then
      ({ st with currentSuggestion := some s, suggestionStartTime := some now },
        false)
    else
      let elapsed := now - (st.suggestionStartTime.getD 0)
      if STABILITY_TIME ≤ elapsed then
        let c := commitMessage now s "signal" st
        ({ c.1 with currentSuggestion := none, suggestionStartTime := none },
          true)
      else (st, false)
  | none =>
    ({ st with currentSuggestion := none, suggestionStartTime := none }, false)

/-- `updateSuggestion`: frozen while locked and the lock has not expired;
otherwise unlock and evaluate the rule engine on this tick. -/
def updateSuggestion (now : Int) (st : MachineState) : MachineState × Bool :=
  if st.isLocked = true ∧ now < st.lockEndTime then (st, false)
  else evaluateCandidate now (generateSuggestion st) { st with isLocked := false }

/-- The rule-engine inputs: the seven state fields `generateSuggestion`
reads. -/
structure Signals where
  headGesture : Gesture
  mouthOpenScore : ℚ
  movementScore : ℚ
  smileScore : ℚ
  sadScore : ℚ
  surprisedScore : ℚ
  soundLevel : ℚ
deriving DecidableEq, Repr

/-- Overwrite the seven rule-engine inputs of a state, modelling the signal
updates a frame's extraction performs before `updateSuggestion` runs. -/
def setSignals (sig : Signals) (st : MachineState) : MachineState :=
  { st with
    headGesture := sig.headGesture
    mouthOpenScore := sig.mouthOpenScore
    movementScore := sig.movementScore
    smileScore := sig.smileScore
    emotionScores := { st.emotionScores with
      sad := sig.sadScore, surprised := sig.surprisedScore }
    soundLevel := sig.soundLevel }

/-- Project the rule-engine inputs out of a state. -/
def signalsOf (st : MachineState) : Signals :=
  ⟨st.headGesture, st.mouthOpenScore, st.movementScore, st.smileScore,
    st.emotionScores.sad, st.emotionScores.surprised, st.soundLevel⟩

/-- The suggestion the rule engine yields for given signal inputs. -/
def suggestionFor (sig : Signals) : Option String :=
  generateSuggestion (setSignals sig initState)

/-- First-match evaluation of an ordered rule list, the combinator form of
the priority policy. -/
def firstMatch : List ((Signals → Bool) × String) → Signals → Option String
  | [], _ => none
  | r :: rs, s => if r.1 s then some r.2 else firstMatch rs s

/-- The ordered priority rules of the suggestion engine, as data. -/
def specRules : List ((Signals → Bool) × String) :=
  [ (fun s => s.headGesture == Gesture.nod, "Yes"),
    (fun s => s.headGesture == Gesture.shake, "No"),
    (fun s => decide (MOUTH_OPEN_THRESHOLD < s.mouthOpenScore)
      && decide (SOUND_SPIKE_THRESHOLD < s.soundLevel), "Needs attention"),
    (fun s => decide ((1/2 : ℚ) < s.movementScore)
      && decide (SOUND_SPIKE_THRESHOLD < s.soundLevel), "Needs a break"),
    (fun s => decide ((8/100 : ℚ) < s.smileScore), "Feeling happy"),
    (fun s => decide ((15/100 : ℚ) < s.sadScore), "Feeling sad"),
    (fun s => decide ((2/10 : ℚ) < s.surprisedScore), "Surprised") ]

/-- A run of evaluation ticks: before each `updateSuggestion` the tick's
signal values are written into the state (the per-frame extraction), and the
commits fired along the run are counted. -/
def runTicks : List (Int × Signals) → MachineState → MachineState × Nat
  | [], st => (st, 0)
  | p :: rest, st =>
    let r := updateSuggestion p.1 (setSignals p.2 st)
    let f := runTicks rest r.1
    (f.1, (if r.2 then 1 else 0) + f.2)

/-- `stopCamera`: stop the stream and reset the camera-derived scores and
gesture (the emotion fields are not touched by this function). -/
def stopCamera (st : MachineState) : MachineState :=
  { st with
    cameraRunning := false
    smileScore := 0
    mouthOpenScore := 0
    movementScore := 0
    headGesture := Gesture.still }

/-- `stopMic`: stop the stream and reset the sound level. -/
def stopMic (st : MachineState) : MachineState :=
  { st with micRunning := false, soundLevel := 0 }

/-- Signal inputs that classify as a nod with everything else quiet. -/
def nodSig : Signals := ⟨Gesture.nod, 0, 0, 0, 0, 0, 0⟩

/-- C2: while locked with the lock not yet expired, an evaluation tick leaves
the whole state unchanged and fires no commit, whatever the current signals
are; on a tick at or past `lockEndTime` the machine clears `isLocked` and
evaluates the rule engine on that same tick. -/
theorem C2_locked_frozen_then_unlock (now : Int) (st : MachineState)
    (h : st.isLocked = true) :
    (now < st.lockEndTime → updateSuggestion now st = (st, false)) ∧
    (st.lockEndTime ≤ now →
      updateSuggestion now st
        = evaluateCandidate now (generateSuggestion st)
            { st with isLocked := false } ∧
      ({ st with isLocked := false } : MachineState).isLocked = false) := by
  constructor
  · intro hlt
    simp [updateSuggestion, h, hlt]
  · intro hle
    refine ⟨?_, rfl⟩
    simp [updateSuggestion, h, not_lt.mpr hle]

/-- Witness for C2 at a concrete locked state and tick time. -/
theorem C2_witness :
    ({ initState with isLocked := true, lockEndTime := 100 } :
        MachineState).isLocked = true ∧
    ((50 : Int) < 100 →
      updateSuggestion 50 { initState with isLocked := true, lockEndTime := 100 }
        = ({ initState with isLocked := true, lockEndTime := 100 }, false)) :=
  ⟨rfl, fun h =>
    (C2_locked_frozen_then_unlock 50
      { initState with isLocked := true, lockEndTime := 100 } rfl).1 h⟩

/-- C3: the suggestion rule engine is a pure function of the seven signal
inputs, equal to first-match evaluation of the ordered priority rule list;
in particular a nod always yields "Yes". -/
theorem C3_rule_engine_first_match (st : MachineState) :
    generateSuggestion st = firstMatch specRules (signalsOf st) ∧
    (st.headGesture = Gesture.nod → generateSuggestion st = some "Yes") := by
  constructor
  · cases hg : st.headGesture <;>
      simp [generateSuggestion, firstMatch, specRules, signalsOf, hg]
  · intro hg
    simp [generateSuggestion, hg]

/-- Witness for C3 at a concrete nodding state. -/
theorem C3_witness :
    ({ initState with headGesture := Gesture.nod } : MachineState).headGesture
        = Gesture.nod ∧
    generateSuggestion { initState with headGesture := Gesture.nod }
        = some "Yes" :=
  ⟨rfl, (C3_rule_engine_first_match
    { initState with headGesture := Gesture.nod }).2 rfl⟩

/-- A state in which the patient is currently classified happy. -/
def emoState : MachineState :=
  { initState with
    currentEmotion := Emotion.happy
    emotionScores := ⟨1/2, 0, 0, 1/2⟩
    smileScore := 1/2 }

/-- C9 counterexample: stopping the camera does not reset the emotion state —
the dominant emotion and emotion scores survive `stopCamera` untouched, so
the claimed immediate reset to fully neutral is false. -/
theorem C9_counterexample :
    (stopCamera emoState).currentEmotion = Emotion.happy ∧
    (stopCamera emoState).emotionScores.happy = 1/2 ∧
    Emotion.happy ≠ Emotion.neutral :=
  ⟨rfl, rfl, by decide⟩

/-- C9 amended: `stopCamera` immediately zeroes smile, mouth-open and
movement and sets the gesture to still, but leaves `currentEmotion` and
`emotionScores` unchanged; `stopMic` immediately resets the sound level. -/
theorem C9_amended_stop_resets (st : MachineState) :
    (stopCamera st).smileScore = 0 ∧
    (stopCamera st).mouthOpenScore = 0 ∧
    (stopCamera st).movementScore = 0 ∧
    (stopCamera st).headGesture = Gesture.still ∧
    (stopCamera st).cameraRunning = false ∧
    (stopCamera st).currentEmotion = st.currentEmotion ∧
    (stopCamera st).emotionScores = st.emotionScores ∧
    (stopMic st).soundLevel = 0 ∧
    (stopMic st).micRunning = false :=
  ⟨rfl, rfl, rfl, rfl, rfl, rfl, rfl, rfl, rfl⟩

lemma commitMessage_locks (now : Int) (msg ty : String) (st : MachineState) :
    (commitMessage now msg ty st).1.isLocked = true ∧
    (commitMessage now msg ty st).1.lockEndTime = now + LOCK_TIME := by
  constructor <;>
    simp only [commitMessage, addToLog, savePatientLog] <;>
    split_ifs <;>
    rfl

/-- C10: every `commitMessage` call unconditionally locks the machine with a
fresh full lock window ending `LOCK_TIME` after the commit time, so a commit
is never rejected by an existing lock and `lockEndTime` is strictly in the
future. -/
theorem C10_commit_always_locks (now : Int) (msg ty : String)
    (st : MachineState) :
    (commitMessage now msg ty st).1.isLocked = true ∧
    (commitMessage now msg ty st).1.lockEndTime = now + LOCK_TIME ∧
    now < (commitMessage now msg ty st).1.lockEndTime := by
  refine ⟨(commitMessage_locks now msg ty st).1,
    (commitMessage_locks now msg ty st).2, ?_⟩
  rw [(commitMessage_locks now msg ty st).2]
  simp [LOCK_TIME]

/-- The speech condition of `commitMessage`: cooldown elapsed, and the
message is new or the repeat cooldown elapsed. -/
def ttsAllowed (now : Int) (msg : String) (st : MachineState) : Prop :=
  TTS_COOLDOWN ≤ now - st.lastTTSTime ∧
    (some msg ≠ st.lastTTSMessage ∨ REPEAT_COOLDOWN ≤ now - st.lastTTSTime)

instance (now : Int) (msg : String) (st : MachineState) :
    Decidable (ttsAllowed now msg st) := by
  unfold ttsAllowed; infer_instance

lemma commitMessage_spoke_iff (now : Int) (msg ty : String) (st : MachineState)
    (hs : st.soundEnabled = true) :
    (commitMessage now msg ty st).2 = true ↔ ttsAllowed now msg st := by
  simp only [commitMessage, hs, ttsAllowed]
  split_ifs with h <;> simp_all

lemma commitMessage_tts_updates (now : Int) (msg ty : String)
    (st : MachineState) (hs : st.soundEnabled = true) :
    ((commitMessage now msg ty st).2 = true →
      (commitMessage now msg ty st).1.lastTTSTime = now ∧
      (commitMessage now msg ty st).1.lastTTSMessage = some msg) ∧
    ((commitMessage now msg ty st).2 = false →
      (commitMessage now msg ty st).1.lastTTSTime = st.lastTTSTime ∧
      (commitMessage now msg ty st).1.lastTTSMessage = st.lastTTSMessage) := by
  simp only [commitMessage, hs, addToLog, savePatientLog]
  split_ifs with h <;> simp

lemma commitMessage_soundEnabled (now : Int) (msg ty : String)
    (st : MachineState) :
    (commitMessage now msg ty st).1.soundEnabled = st.soundEnabled := by
  simp only [commitMessage, addToLog, savePatientLog]
  split_ifs <;> rfl

/-- C6: with sound enabled, a commit requests speech exactly when the TTS
cooldown has elapsed and the message is new or the repeat cooldown has
elapsed; speaking updates `lastTTSTime`/`lastTTSMessage` to the commit, a
suppressed commit leaves them unchanged.  Consequently a second identical
commit within `REPEAT_COOLDOWN` of a spoken one is silent, and an identical
commit at least `REPEAT_COOLDOWN` after it speaks again. -/
theorem C6_tts_cooldown_policy (now : Int) (msg ty : String)
    (st : MachineState) (hs : st.soundEnabled = true) :
    ((commitMessage now msg ty st).2 = true ↔ ttsAllowed now msg st) ∧
    ((commitMessage now msg ty st).2 = true →
      (commitMessage now msg ty st).1.lastTTSTime = now ∧
      (commitMessage now msg ty st).1.lastTTSMessage = some msg) ∧
    ((commitMessage now msg ty st).2 = false →
      (commitMessage now msg ty st).1.lastTTSTime = st.lastTTSTime ∧
      (commitMessage now msg ty st).1.lastTTSMessage = st.lastTTSMessage) ∧
    (∀ t1 t2 : Int, (commitMessage now msg ty st).2 = true →
      t1 - now < REPEAT_COOLDOWN → REPEAT_COOLDOWN ≤ t2 - now →
      (commitMessage t1 msg ty (commitMessage now msg ty st).1).2 = false ∧
      (commitMessage t2 msg ty
        (commitMessage t1 msg ty (commitMessage now msg ty st).1).1).2
          = true) := by
  refine ⟨commitMessage_spoke_iff now msg ty st hs,
    (commitMessage_tts_updates now msg ty st hs).1,
    (commitMessage_tts_updates now msg ty st hs).2, ?_⟩
  intro t1 t2 hspoke h1 h2
  set r0 := (commitMessage now msg ty st).1 with hr0
  have hr0s : r0.soundEnabled = true := by
    rw [hr0, commitMessage_soundEnabled]; exact hs
  have htts0 := ((commitMessage_tts_updates now msg ty st hs).1 hspoke)
  have hsilent : (commitMessage t1 msg ty r0).2 = false := by
    rw [← Bool.not_eq_true]
    intro hsp
    have := (commitMessage_spoke_iff t1 msg ty r0 hr0s).1 hsp
    rcases this with ⟨_, hrep⟩
    rcases hrep with hne | hrep
    · exact hne (by rw [htts0.2])
    · rw [htts0.1] at hrep
      omega
  refine ⟨hsilent, ?_⟩
  set r1 := (commitMessage t1 msg ty r0).1 with hr1
  have hr1s : r1.soundEnabled = true := by
    rw [hr1, commitMessage_soundEnabled]; exact hr0s
  have htts1 := ((commitMessage_tts_updates t1 msg ty r0 hr0s).2 hsilent)
  refine (commitMessage_spoke_iff t2 msg ty r1 hr1s).2 ?_
  constructor
  · rw [htts1.1, htts0.1]
    simp only [TTS_COOLDOWN]
    simp only [REPEAT_COOLDOWN] at h2
    omega
  · right
    rw [htts1.1, htts0.1]
    exact h2

/-- Witness for C6: a fresh state speaks at t=5000, an identical commit at
t=6000 is silent, and an identical commit at t=15000 speaks again. -/
theorem C6_witness :
    initState.soundEnabled = true ∧
    (commitMessage 5000 "Yes" "signal" initState).2 = true ∧
    ((6000 : Int) - 5000 < REPEAT_COOLDOWN) ∧
    (REPEAT_COOLDOWN ≤ (15000 : Int) - 5000) ∧
    (commitMessage 6000 "Yes" "signal"
      (commitMessage 5000 "Yes" "signal" initState).1).2 = false ∧
    (commitMessage 15000 "Yes" "signal"
      (commitMessage 6000 "Yes" "signal"
        (commitMessage 5000 "Yes" "signal" initState).1).1).2 = true := by
  have h := (C6_tts_cooldown_policy 5000 "Yes" "signal" initState rfl).2.2.2
    6000 15000 (by decide) (by decide) (by decide)
  exact ⟨rfl, by decide, by decide, by decide, h.1, h.2⟩

/-- The log entry built for one insertion (timestamp, message, category)
under a given patient. -/
def entryOf (patient : String) (p : Int × String × String) : LogEntry :=
  ⟨p.1, p.2.1, p.2.2, patient⟩

/-- A sequence of `addToLog` insertions, oldest first. -/
def addToLogMany (ms : List (Int × String × String)) (st : MachineState) :
    MachineState :=
  ms.foldl (fun s p => addToLog p.1 p.2.1 p.2.2 s) st

lemma take_append_take {α : Type} (A B : List α) (n : Nat) :
    (A ++ B.take n).take n = (A ++ B).take n := by
  rw [List.take_append_eq_append_take, List.take_append_eq_append_take,
    List.take_take]
  congr 1
  rw [Nat.min_eq_left (Nat.sub_le n A.length)]

lemma addToLog_conversationLog (now : Int) (msg ty : String)
    (st : MachineState) (_h : st.conversationLog.length ≤ MAX_LOG_ITEMS) :
    (addToLog now msg ty st).conversationLog
      = ((⟨now, msg, ty, st.currentPatient⟩ : LogEntry)
          :: st.conversationLog).take MAX_LOG_ITEMS := by
  simp only [addToLog, savePatientLog]
  split_ifs with hlen
  · rfl
  · exact (List.take_of_length_le (by omega)).symm

lemma addToLog_length_le (now : Int) (msg ty : String) (st : MachineState)
    (h : st.conversationLog.length ≤ MAX_LOG_ITEMS) :
    (addToLog now msg ty st).conversationLog.length ≤ MAX_LOG_ITEMS := by
  rw [addToLog_conversationLog now msg ty st h]
  simp [MAX_LOG_ITEMS]

lemma addToLog_persisted_eq (now : Int) (msg ty : String) (st : MachineState)
    (h : st.conversationLog.length ≤ MAX_LOG_ITEMS) :
    (addToLog now msg ty st).persistedLog
      = (addToLog now msg ty st).conversationLog := by
  have hlen := addToLog_length_le now msg ty st h
  simp only [addToLog, savePatientLog] at hlen ⊢
  have : ∀ L : List LogEntry, L.length ≤ MAX_LOG_ITEMS →
      L.drop (L.length - MAX_LOG_ITEMS) = L := by
    intro L hL
    rw [Nat.sub_eq_zero_of_le hL, List.drop_zero]
  exact this _ hlen

lemma addToLogMany_log (ms : List (Int × String × String)) :
    ∀ st : MachineState, st.conversationLog.length ≤ MAX_LOG_ITEMS →
    (addToLogMany ms st).conversationLog
      = ((ms.map (entryOf st.currentPatient)).reverse
          ++ st.conversationLog).take MAX_LOG_ITEMS := by
  induction ms with
  | nil =>
    intro st h
    simpa [addToLogMany] using (List.take_of_length_le h).symm
  | cons m tl ih =>
    intro st h
    have hstep := addToLog_conversationLog m.1 m.2.1 m.2.2 st h
    have hlen' := addToLog_length_le m.1 m.2.1 m.2.2 st h
    have hmany : addToLogMany (m :: tl) st
        = addToLogMany tl (addToLog m.1 m.2.1 m.2.2 st) := rfl
    have hpat : (addToLog m.1 m.2.1 m.2.2 st).currentPatient
        = st.currentPatient := rfl
    rw [hmany, ih _ hlen', hpat, hstep]
    rw [take_append_take]
    simp [entryOf, List.append_assoc]

lemma addToLogMany_persisted (ms : List (Int × String × String)) :
    ∀ st : MachineState, st.conversationLog.length ≤ MAX_LOG_ITEMS →
    st.persistedLog = st.conversationLog →
    (addToLogMany ms st).persistedLog
      = (addToLogMany ms st).conversationLog := by
  induction ms with
  | nil => intro st _ hp; exact hp
  | cons m tl ih =>
    intro st h _
    exact ih _ (addToLog_length_le m.1 m.2.1 m.2.2 st h)
      (addToLog_persisted_eq m.1 m.2.1 m.2.2 st h)

/-- C7: inserting any sequence of entries into the log starting from the
initial (empty) state leaves exactly the `min(total, MAX_LOG_ITEMS)` most
recent entries in newest-first order — each insertion prepends and drops the
oldest beyond the cap — and the persisted copy equals the in-memory log after
every mutation (every prefix of insertions is itself such a sequence). -/
theorem C7_log_eviction (ms : List (Int × String × String)) :
    (addToLogMany ms initState).conversationLog
      = ((ms.map (entryOf initState.currentPatient)).reverse).take
          MAX_LOG_ITEMS ∧
    (addToLogMany ms initState).conversationLog.length
      = min MAX_LOG_ITEMS ms.length ∧
    (addToLogMany ms initState).persistedLog
      = (addToLogMany ms initState).conversationLog := by
  have hlog := addToLogMany_log ms initState (by simp [initState])
  have hlog' : (addToLogMany ms initState).conversationLog
      = ((ms.map (entryOf initState.currentPatient)).reverse).take
          MAX_LOG_ITEMS := by
    simpa [initState] using hlog
  refine ⟨hlog', ?_, ?_⟩
  · rw [hlog']
    simp
  · exact addToLogMany_persisted ms initState (by simp [initState]) rfl

lemma generateSuggestion_setSignals (sig : Signals) (st : MachineState) :
    generateSuggestion (setSignals sig st) = suggestionFor sig := rfl

lemma setSignals_commit_fields (sig : Signals) (st : MachineState) :
    (setSignals sig st).currentSuggestion = st.currentSuggestion ∧
    (setSignals sig st).suggestionStartTime = st.suggestionStartTime ∧
    (setSignals sig st).isLocked = st.isLocked ∧
    (setSignals sig st).lockEndTime = st.lockEndTime :=
  ⟨rfl, rfl, rfl, rfl⟩

lemma updateSuggestion_not_locked (now : Int) (st : MachineState)
    (hl : st.isLocked = false) :
    updateSuggestion now st
      = evaluateCandidate now (generateSuggestion st)
          { st with isLocked := false } := by
  simp [updateSuggestion, hl]

lemma evaluateCandidate_new (now : Int) (s : String) (st : MachineState)
    (h : some s ≠ st.currentSuggestion) :
    evaluateCandidate now (some s) st
      = ({ st with
            currentSuggestion := some s
            suggestionStartTime := some now }, false) := by
  simp [evaluateCandidate, h]

lemma evaluateCandidate_wait (now t0 : Int) (s : String) (st : MachineState)
    (hc : st.currentSuggestion = some s)
    (hs : st.suggestionStartTime = some t0)
    (ht : now - t0 < STABILITY_TIME) :
    evaluateCandidate now (some s) st = (st, false) := by
  simp [evaluateCandidate, hc, hs, not_le.mpr ht]

lemma evaluateCandidate_fire (now t0 : Int) (s : String) (st : MachineState)
    (hc : st.currentSuggestion = some s)
    (hs : st.suggestionStartTime = some t0)
    (ht : STABILITY_TIME ≤ now - t0) :
    evaluateCandidate now (some s) st
      = ({ (commitMessage now s "signal" st).1 with
            currentSuggestion := none
            suggestionStartTime := none }, true) := by
  simp [evaluateCandidate, hc, hs, ht]

lemma tick_start (t : Int) (s : String) (sig : Signals) (st : MachineState)
    (hc : st.currentSuggestion = none) (hl : st.isLocked = false)
    (hsig : suggestionFor sig = some s) :
    (updateSuggestion t (setSignals sig st)).2 = false ∧
    (updateSuggestion t (setSignals sig st)).1.currentSuggestion = some s ∧
    (updateSuggestion t (setSignals sig st)).1.suggestionStartTime = some t ∧
    (updateSuggestion t (setSignals sig st)).1.isLocked = false := by
  have h1 : (setSignals sig st).isLocked = false := hl
  have hne : some s
      ≠ ({ setSignals sig st with isLocked := false } :
          MachineState).currentSuggestion := by
    show some s ≠ st.currentSuggestion
    rw [hc]; simp
  rw [updateSuggestion_not_locked _ _ h1, generateSuggestion_setSignals, hsig,
    evaluateCandidate_new _ _ _ hne]
  exact ⟨rfl, rfl, rfl, rfl⟩

lemma tick_stabilizing (t t0 : Int) (s : String) (sig : Signals)
    (st : MachineState)
    (hc : st.currentSuggestion = some s) (hs : st.suggestionStartTime = some t0)
    (hl : st.isLocked = false) (hsig : suggestionFor sig = some s)
    (ht : t - t0 < STABILITY_TIME) :
    (updateSuggestion t (setSignals sig st)).2 = false ∧
    (updateSuggestion t (setSignals sig st)).1.currentSuggestion = some s ∧
    (updateSuggestion t (setSignals sig st)).1.suggestionStartTime = some t0 ∧
    (updateSuggestion t (setSignals sig st)).1.isLocked = false := by
  have h1 : (setSignals sig st).isLocked = false := hl
  have hc' : ({ setSignals sig st with isLocked := false } :
      MachineState).currentSuggestion = some s := hc
  have hs' : ({ setSignals sig st with isLocked := false } :
      MachineState).suggestionStartTime = some t0 := hs
  rw [updateSuggestion_not_locked _ _ h1, generateSuggestion_setSignals, hsig,
    evaluateCandidate_wait t t0 s _ hc' hs' ht]
  exact ⟨rfl, hc, hs, rfl⟩

lemma tick_commit (t t0 : Int) (s : String) (sig : Signals)
    (st : MachineState)
    (hc : st.currentSuggestion = some s) (hs : st.suggestionStartTime = some t0)
    (hl : st.isLocked = false) (hsig : suggestionFor sig = some s)
    (ht : STABILITY_TIME ≤ t - t0) :
    (updateSuggestion t (setSignals sig st)).2 = true ∧
    (updateSuggestion t (setSignals sig st)).1.currentSuggestion = none ∧
    (updateSuggestion t (setSignals sig st)).1.suggestionStartTime = none ∧
    (updateSuggestion t (setSignals sig st)).1.isLocked = true ∧
    (updateSuggestion t (setSignals sig st)).1.lockEndTime = t + LOCK_TIME := by
  have h1 : (setSignals sig st).isLocked = false := hl
  have hc' : ({ setSignals sig st with isLocked := false } :
      MachineState).currentSuggestion = some s := hc
  have hs' : ({ setSignals sig st with isLocked := false } :
      MachineState).suggestionStartTime = some t0 := hs
  rw [updateSuggestion_not_locked _ _ h1, generateSuggestion_setSignals, hsig,
    evaluateCandidate_fire t t0 s _ hc' hs' ht]
  refine ⟨rfl, rfl, rfl, ?_, ?_⟩
  · exact (commitMessage_locks t s "signal" _).1
  · exact (commitMessage_locks t s "signal" _).2

lemma tick_locked (t : Int) (sig : Signals) (st : MachineState)
    (hl : st.isLocked = true) (ht : t < st.lockEndTime) :
    updateSuggestion t (setSignals sig st) = (setSignals sig st, false) := by
  have h1 : (setSignals sig st).isLocked = true := hl
  have h2 : t < (setSignals sig st).lockEndTime := ht
  simp [updateSuggestion, h1, h2]

lemma runTicks_stabilizing (s : String) (t0 : Int)
    (pre : List (Int × Signals)) :
    ∀ st : MachineState,
    st.currentSuggestion = some s → st.suggestionStartTime = some t0 →
    st.isLocked = false →
    (∀ p ∈ pre, suggestionFor p.2 = some s ∧ p.1 - t0 < STABILITY_TIME) →
    (runTicks pre st).2 = 0 ∧
    (runTicks pre st).1.currentSuggestion = some s ∧
    (runTicks pre st).1.suggestionStartTime = some t0 ∧
    (runTicks pre st).1.isLocked = false := by
  induction pre with
  | nil => intro st h1 h2 h3 _; exact ⟨rfl, h1, h2, h3⟩
  | cons p tl ih =>
    intro st h1 h2 h3 hall
    have hp := hall p (List.mem_cons_self p tl)
    have hstep := tick_stabilizing p.1 t0 s p.2 st h1 h2 h3 hp.1 hp.2
    have hrest := ih (updateSuggestion p.1 (setSignals p.2 st)).1
      hstep.2.1 hstep.2.2.1 hstep.2.2.2
      (fun q hq => hall q (List.mem_cons_of_mem p hq))
    simp only [runTicks, hstep.1, Bool.false_eq_true, if_false, Nat.zero_add]
    exact ⟨hrest.1, hrest.2.1, hrest.2.2.1, hrest.2.2.2⟩

lemma runTicks_locked (post : List (Int × Signals)) (e : Int) :
    ∀ st : MachineState,
    st.isLocked = true → st.lockEndTime = e →
    (∀ p ∈ post, p.1 < e) →
    (runTicks post st).2 = 0 ∧
    (runTicks post st).1.currentSuggestion = st.currentSuggestion ∧
    (runTicks post st).1.suggestionStartTime = st.suggestionStartTime ∧
    (runTicks post st).1.isLocked = true ∧
    (runTicks post st).1.lockEndTime = e := by
  induction post with
  | nil => intro st h1 h2 _; exact ⟨rfl, rfl, rfl, h1, h2⟩
  | cons p tl ih =>
    intro st h1 h2 hall
    have hp : p.1 < st.lockEndTime := by
      rw [h2]; exact hall p (List.mem_cons_self p tl)
    have hstep := tick_locked p.1 p.2 st h1 hp
    have hfields := setSignals_commit_fields p.2 st
    have hrest := ih (setSignals p.2 st)
      (by rw [hfields.2.2.1]; exact h1)
      (by rw [hfields.2.2.2]; exact h2)
      (fun q hq => hall q (List.mem_cons_of_mem p hq))
    simp only [runTicks, hstep, Bool.false_eq_true, if_false, Nat.zero_add]
    refine ⟨hrest.1, ?_, ?_, hrest.2.2.2.1, hrest.2.2.2.2⟩
    · rw [hrest.2.1, hfields.1]
    · rw [hrest.2.2.1, hfields.2.1]

lemma runTicks_append (l1 l2 : List (Int × Signals)) :
    ∀ st : MachineState,
    runTicks (l1 ++ l2) st
      = ((runTicks l2 (runTicks l1 st).1).1,
          (runTicks l1 st).2 + (runTicks l2 (runTicks l1 st).1).2) := by
  induction l1 with
  | nil => intro st; simp [runTicks]
  | cons p tl ih =>
    intro st
    simp only [List.cons_append, runTicks, List.append_eq, ih]
    rw [Nat.add_assoc]

/-- C1: a sustained run of ticks all yielding the same non-null suggestion,
starting unlocked with no candidate — every tick before `tc` within the
stability window, the tick at `tc` at least `STABILITY_TIME` after the run's
start `t0`, and every later tick inside the resulting lock window — fires
exactly one commit; the commit clears the candidate (both fields null) and
locks the machine with `lockEndTime = tc + LOCK_TIME`. -/
theorem C1_stable_run_commits_once (s : String) (t0 tc : Int)
    (sig0 sigc : Signals) (pre post : List (Int × Signals))
    (st0 : MachineState)
    (h0 : st0.currentSuggestion = none) (hl0 : st0.isLocked = false)
    (hsig0 : suggestionFor sig0 = some s)
    (hpre : ∀ p ∈ pre, suggestionFor p.2 = some s ∧ p.1 - t0 < STABILITY_TIME)
    (hsigc : suggestionFor sigc = some s) (hc : STABILITY_TIME ≤ tc - t0)
    (hpost : ∀ p ∈ post, p.1 < tc + LOCK_TIME) :
    (runTicks ((t0, sig0) :: (pre ++ (tc, sigc) :: post)) st0).2 = 1 ∧
    (runTicks ((t0, sig0) :: (pre ++ (tc, sigc) :: post))
        st0).1.currentSuggestion = none ∧
    (runTicks ((t0, sig0) :: (pre ++ (tc, sigc) :: post))
        st0).1.suggestionStartTime = none ∧
    (runTicks ((t0, sig0) :: (pre ++ (tc, sigc) :: post)) st0).1.isLocked
        = true ∧
    (runTicks ((t0, sig0) :: (pre ++ (tc, sigc) :: post)) st0).1.lockEndTime
        = tc + LOCK_TIME := by
  have hfirst := tick_start t0 s sig0 st0 h0 hl0 hsig0
  set stA := (updateSuggestion t0 (setSignals sig0 st0)).1 with hA
  have hmid := runTicks_stabilizing s t0 pre stA
    hfirst.2.1 hfirst.2.2.1 hfirst.2.2.2 hpre
  set stB := (runTicks pre stA).1 with hB
  have hcommit := tick_commit tc t0 s sigc stB
    hmid.2.1 hmid.2.2.1 hmid.2.2.2 hsigc hc
  set stC := (updateSuggestion tc (setSignals sigc stB)).1 with hCdef
  have hend := runTicks_locked post (tc + LOCK_TIME) stC
    hcommit.2.2.2.1 hcommit.2.2.2.2 hpost
  have hsplit : runTicks ((t0, sig0) :: (pre ++ (tc, sigc) :: post)) st0
      = ((runTicks ((tc, sigc) :: post) stB).1,
          (if (updateSuggestion t0 (setSignals sig0 st0)).2 then 1 else 0)
            + ((runTicks pre stA).2
              + (runTicks ((tc, sigc) :: post) stB).2)) := by
    simp only [runTicks, hA, hB, runTicks_append]
  have htail : runTicks ((tc, sigc) :: post) stB
      = ((runTicks post stC).1,
          (if (updateSuggestion tc (setSignals sigc stB)).2 then 1 else 0)
            + (runTicks post stC).2) := by
    simp only [runTicks, hCdef]
  rw [hsplit, htail]
  simp only [hfirst.1, hcommit.1, hmid.1, hend.1, if_false, if_true]
  refine ⟨rfl, ?_, ?_, hend.2.2.2.1, hend.2.2.2.2⟩
  · rw [hend.2.1, hcommit.2.1]
  · rw [hend.2.2.1, hcommit.2.2.1]

/-- Witness for C1: a nod sustained at t = 0, 400, 800 commits exactly once
at t = 800, and a tick at t = 1000 inside the lock window changes nothing. -/
theorem C1_witness :
    initState.currentSuggestion = none ∧ initState.isLocked = false ∧
    suggestionFor nodSig = some "Yes" ∧
    (STABILITY_TIME ≤ (800 : Int) - 0) ∧
    (runTicks ((0, nodSig) :: ([(400, nodSig)] ++ (800, nodSig)
        :: [(1000, nodSig)])) initState).2 = 1 ∧
    (runTicks ((0, nodSig) :: ([(400, nodSig)] ++ (800, nodSig)
        :: [(1000, nodSig)])) initState).1.isLocked = true ∧
    (runTicks ((0, nodSig) :: ([(400, nodSig)] ++ (800, nodSig)
        :: [(1000, nodSig)])) initState).1.lockEndTime = 800 + LOCK_TIME := by
  have h := C1_stable_run_commits_once "Yes" 0 800 nodSig nodSig
    [(400, nodSig)] [(1000, nodSig)] initState rfl rfl (by decide)
    (by intro p hp; simp only [List.mem_singleton] at hp; subst hp
        exact ⟨by decide, by decide⟩)
    (by decide) (by decide)
    (by intro p hp; simp only [List.mem_singleton] at hp; subst hp; decide)
  exact ⟨rfl, rfl, by decide, by decide, h.1, h.2.2.2.1, h.2.2.2.2⟩

/-- A detection result with a face whose landmark list is empty: every
expected landmark role is missing. -/
def malformedResults : FaceResults := ⟨[[]], []⟩

/-- A state carrying a nonzero smile from an earlier frame. -/
def staleState : MachineState := { initState with smileScore := 1/2 }

/-- C4 counterexample: on a sample with a face but no landmark roles the
extractor throws (the error leaves `processResults`) instead of returning the
zero SignalFrame, and the caught tick leaves the previous nonzero signal state
in place rather than zeroing it. -/
theorem C4_counterexample :
    processResults 0 (some malformedResults) initState = Except.error () ∧
    detectTick 0 (some malformedResults) staleState = staleState ∧
    staleState.smileScore ≠ 0 :=
  ⟨rfl, rfl, by norm_num [staleState]⟩

/-- C4 amended: a sample whose first face is missing any of the mouth
landmark roles (61, 291, 13, 14) makes the extractor itself throw — the
exception propagates out of `processResults` — and the enclosing detection
loop catches it, leaving the entire signal state unchanged for that tick
(no zero SignalFrame is stored). -/
theorem C4_amended_malformed_throws (now : Int) (r : FaceResults)
    (l : List Landmark) (st : MachineState)
    (hl : r.faceLandmarks.head? = some l)
    (hmiss : l.get? 61 = none ∨ l.get? 291 = none ∨ l.get? 13 = none
      ∨ l.get? 14 = none) :
    processResults now (some r) st = Except.error () ∧
    detectTick now (some r) st = st := by
  have herr : processResults now (some r) st = Except.error () := by
    simp only [processResults, hl]
    split
    · unfold detectSmileFromLandmarks
      split
      · rcases hmiss with h | h | h | h <;> simp_all
      · rfl
    · unfold blendshapePath
      split
      · rcases hmiss with h | h | h | h <;> simp_all
      · rfl
  refine ⟨herr, ?_⟩
  simp only [detectTick, herr]

/-- Witness for C4 at a single-landmark face (role 61 missing). -/
theorem C4_witness :
    ((⟨[[⟨0, 0⟩]], []⟩ : FaceResults).faceLandmarks.head?
      = some [(⟨0, 0⟩ : Landmark)]) ∧
    ([(⟨0, 0⟩ : Landmark)].get? 61 = none) ∧
    processResults 5 (some ⟨[[⟨0, 0⟩]], []⟩) initState = Except.error () ∧
    detectTick 5 (some ⟨[[⟨0, 0⟩]], []⟩) initState = initState := by
  refine ⟨rfl, rfl, ?_, ?_⟩
  · exact (C4_amended_malformed_throws 5 ⟨[[⟨0, 0⟩]], []⟩ [⟨0, 0⟩] initState rfl
      (Or.inl rfl)).1
  · exact (C4_amended_malformed_throws 5 ⟨[[⟨0, 0⟩]], []⟩ [⟨0, 0⟩] initState rfl
      (Or.inl rfl)).2

lemma detectSmileFromLandmarks_eq (now : Int) (l : List Landmark)
    (st : MachineState) (lc rc ul ll nt : Landmark)
    (h61 : l.get? 61 = some lc) (h291 : l.get? 291 = some rc)
    (h13 : l.get? 13 = some ul) (h14 : l.get? 14 = some ll)
    (h4 : l.get? 4 = some nt) :
    detectSmileFromLandmarks now l st = Except.ok { st with
      smileScore := fallbackSmile lc rc ul ll
      mouthOpenScore := fallbackMouthOpen ul ll
      emotionScores := (⟨fallbackSmile lc rc ul ll,
        max 0 (-cornerLiftOf lc rc ul ll * 10),
        fallbackMouthOpen ul ll * (1/2),
        max 0 (1 - fallbackSmile lc rc ul ll
          - max 0 (-cornerLiftOf lc rc ul ll * 10))⟩ : EmotionScores)
      currentEmotion :=
        if (1/5 : ℚ) < fallbackSmile lc rc ul ll then Emotion.happy
        else if (1/5 : ℚ) < max 0 (-cornerLiftOf lc rc ul ll * 10) then
          Emotion.sad
        else Emotion.neutral
      noseHistory := pushNose now nt st.noseHistory
      headGesture :=
        if GESTURE_FRAMES ≤ (pushNose now nt st.noseHistory).length then
          detectHeadGesture (pushNose now nt st.noseHistory)
        else st.headGesture
      movementScore :=
        if GESTURE_FRAMES ≤ (pushNose now nt st.noseHistory).length then
          movementOf (pushNose now nt st.noseHistory)
        else st.movementScore } := by
  simp only [detectSmileFromLandmarks, h61, h291, h13, h14, h4]

lemma blendshapePath_eq (now : Int) (l : List Landmark) (bs : List Blendshape)
    (st : MachineState) (lc rc ul ll nt : Landmark)
    (h61 : l.get? 61 = some lc) (h291 : l.get? 291 = some rc)
    (h13 : l.get? 13 = some ul) (h14 : l.get? 14 = some ll)
    (h4 : l.get? 4 = some nt) :
    blendshapePath now l bs st = Except.ok { st with
      smileScore := max ((getBlendshape "mouthSmileLeft" bs
          + getBlendshape "mouthSmileRight" bs) / 2) (backupSmile lc rc ul ll)
      mouthOpenScore := getBlendshape "jawOpen" bs
      browScore := (getBlendshape "browInnerUp" bs
        + getBlendshape "browOuterUpLeft" bs
        + getBlendshape "browOuterUpRight" bs) / 3
      eyeOpenScore := (getBlendshape "eyeWideLeft" bs
        + getBlendshape "eyeWideRight" bs) / 2
      emotionScores := (⟨
        min 1 (max ((getBlendshape "mouthSmileLeft" bs
          + getBlendshape "mouthSmileRight" bs) / 2)
          (backupSmile lc rc ul ll) * 2),
        min 1 ((getBlendshape "mouthFrownLeft" bs
          + getBlendshape "mouthFrownRight" bs) / 2 * (3/2)
          + (getBlendshape "browDownLeft" bs
            + getBlendshape "browDownRight" bs) / 2 * (1/2)),
        min 1 ((getBlendshape "browInnerUp" bs
          + getBlendshape "browOuterUpLeft" bs
          + getBlendshape "browOuterUpRight" bs) / 3 * (4/5)
          + (getBlendshape "eyeWideLeft" bs
            + getBlendshape "eyeWideRight" bs) / 2 * (4/5)
          + getBlendshape "jawOpen" bs * (2/5)),
        max 0 (1
          - min 1 (max ((getBlendshape "mouthSmileLeft" bs
            + getBlendshape "mouthSmileRight" bs) / 2)
            (backupSmile lc rc ul ll) * 2)
          - min 1 ((getBlendshape "mouthFrownLeft" bs
            + getBlendshape "mouthFrownRight" bs) / 2 * (3/2)
            + (getBlendshape "browDownLeft" bs
              + getBlendshape "browDownRight" bs) / 2 * (1/2))
          - min 1 ((getBlendshape "browInnerUp" bs
            + getBlendshape "browOuterUpLeft" bs
            + getBlendshape "browOuterUpRight" bs) / 3 * (4/5)
            + (getBlendshape "eyeWideLeft" bs
              + getBlendshape "eyeWideRight" bs) / 2 * (4/5)
            + getBlendshape "jawOpen" bs * (2/5)))⟩ : EmotionScores)
      currentEmotion :=
        if (1/10 : ℚ) < max ((getBlendshape "mouthSmileLeft" bs
            + getBlendshape "mouthSmileRight" bs) / 2)
            (backupSmile lc rc ul ll) then Emotion.happy
        else if (15/100 : ℚ) < min 1 ((getBlendshape "mouthFrownLeft" bs
            + getBlendshape "mouthFrownRight" bs) / 2 * (3/2)
            + (getBlendshape "browDownLeft" bs
              + getBlendshape "browDownRight" bs) / 2 * (1/2)) then
          Emotion.sad
        else if (2/10 : ℚ) < min 1 ((getBlendshape "browInnerUp" bs
            + getBlendshape "browOuterUpLeft" bs
            + getBlendshape "browOuterUpRight" bs) / 3 * (4/5)
            + (getBlendshape "eyeWideLeft" bs
              + getBlendshape "eyeWideRight" bs) / 2 * (4/5)
            + getBlendshape "jawOpen" bs * (2/5)) then Emotion.surprised
        else Emotion.neutral
      noseHistory := pushNose now nt st.noseHistory
      headGesture :=
        if GESTURE_FRAMES ≤ (pushNose now nt st.noseHistory).length then
          detectHeadGesture (pushNose now nt st.noseHistory)
        else st.headGesture
      movementScore :=
        if GESTURE_FRAMES ≤ (pushNose now nt st.noseHistory).length then
          movementOf (pushNose now nt st.noseHistory)
        else st.movementScore } := by
  simp only [blendshapePath, h61, h291, h13, h14, h4]

/-- A score lying in the unit interval. -/
def Ok01 (x : ℚ) : Prop := 0 ≤ x ∧ x ≤ 1

/-- All landmark coordinates normalized to the unit square. -/
def ValidLandmarks (l : List Landmark) : Prop :=
  ∀ p ∈ l, 0 ≤ p.x ∧ p.x ≤ 1 ∧ 0 ≤ p.y ∧ p.y ≤ 1

/-- All blendshape intensities in the unit interval, the perception-source
contract. -/
def ValidBlendshapes (bs : List Blendshape) : Prop :=
  ∀ b ∈ bs, 0 ≤ b.score ∧ b.score ≤ 1

/-- A well-formed detection result under the perception-source contract. -/
def ValidInput : Option FaceResults → Prop
  | none => True
  | some r => (∀ l ∈ r.faceLandmarks, ValidLandmarks l) ∧
      (∀ bs ∈ r.faceBlendshapes, ValidBlendshapes bs)

/-- The bounds every extraction step actually guarantees: all scalar signal
fields in [0,1] except `emotionScores.sad`, which is only nonnegative. -/
def Inv01 (st : MachineState) : Prop :=
  Ok01 st.smileScore ∧ Ok01 st.mouthOpenScore ∧ Ok01 st.movementScore ∧
  Ok01 st.emotionScores.happy ∧ 0 ≤ st.emotionScores.sad ∧
  Ok01 st.emotionScores.surprised ∧ Ok01 st.emotionScores.neutral

/-- Whether a detection result is handled by the blendshape path (face
present and a nonempty blendshape category list). -/
def usedBlendshapes : Option FaceResults → Bool
  | none => false
  | some r => !r.faceLandmarks.isEmpty && !(r.faceBlendshapes.headD []).isEmpty

lemma clamp01_mem (x : ℚ) : Ok01 (clamp01 x) :=
  ⟨le_max_left 0 _, max_le (by norm_num) (min_le_left 1 x)⟩

lemma min1_mem (x : ℚ) (hx : 0 ≤ x) : Ok01 (min 1 x) :=
  ⟨le_min (by norm_num) hx, min_le_left 1 x⟩

lemma max0_mem (x : ℚ) (hx : x ≤ 1) : Ok01 (max 0 x) :=
  ⟨le_max_left 0 x, max_le (by norm_num) hx⟩

lemma movementOf_mem (hist : List NosePoint) : Ok01 (movementOf hist) := by
  refine min1_mem _ ?_
  positivity

lemma getBlendshape_mem (n : String) (bs : List Blendshape)
    (hv : ValidBlendshapes bs) : Ok01 (getBlendshape n bs) := by
  unfold getBlendshape
  cases hf : bs.find? (fun b => b.categoryName == n) with
  | none => exact ⟨le_refl 0, by norm_num⟩
  | some b => exact hv b (List.mem_of_find?_eq_some hf)

lemma zeroReset_inv (st : MachineState) : Inv01 (zeroResetSignals st) := by
  refine ⟨⟨?_, ?_⟩, ⟨?_, ?_⟩, ⟨?_, ?_⟩, ⟨?_, ?_⟩, ?_, ⟨?_, ?_⟩, ⟨?_, ?_⟩⟩ <;>
    norm_num [zeroResetSignals]

lemma fallback_inv (now : Int) (l : List Landmark) (st st' : MachineState)
    (hmov : Ok01 st.movementScore)
    (h : detectSmileFromLandmarks now l st = Except.ok st') : Inv01 st' := by
  cases h61 : l.get? 61 with
  | none =>
    simp only [detectSmileFromLandmarks, h61] at h
    exact Except.noConfusion h
  | some lc =>
  cases h291 : l.get? 291 with
  | none =>
    simp only [detectSmileFromLandmarks, h61, h291] at h
    exact Except.noConfusion h
  | some rc =>
  cases h13 : l.get? 13 with
  | none =>
    simp only [detectSmileFromLandmarks, h61, h291, h13] at h
    exact Except.noConfusion h
  | some ul =>
  cases h14 : l.get? 14 with
  | none =>
    simp only [detectSmileFromLandmarks, h61, h291, h13, h14] at h
    exact Except.noConfusion h
  | some ll =>
  cases h4 : l.get? 4 with
  | none =>
    simp only [detectSmileFromLandmarks, h61, h291, h13, h14, h4] at h
    exact Except.noConfusion h
  | some nt =>
  rw [detectSmileFromLandmarks_eq now l st lc rc ul ll nt h61 h291 h13 h14 h4,
    Except.ok.injEq] at h
  subst h
  have hsmile := clamp01_mem ((mouthWidthOf lc rc
    / (mouthHeightOf ul ll + 1/1000) - 2) / 3 + cornerLiftOf lc rc ul ll * 10)
  have hmouth := clamp01_mem (mouthHeightOf ul ll * 5)
  have hsad : (0:ℚ) ≤ max 0 (-cornerLiftOf lc rc ul ll * 10) :=
    le_max_left 0 _
  refine ⟨hsmile, hmouth, ?_, hsmile, hsad, ?_, ?_⟩
  · show Ok01 (if GESTURE_FRAMES ≤ (pushNose now nt st.noseHistory).length
      then movementOf (pushNose now nt st.noseHistory) else st.movementScore)
    split
    · exact movementOf_mem _
    · exact hmov
  · show Ok01 (fallbackMouthOpen ul ll * (1/2))
    obtain ⟨h1, h2⟩ := hmouth
    constructor
    · have : (0:ℚ) ≤ 1/2 := by norm_num
      exact mul_nonneg h1 this
    · show fallbackMouthOpen ul ll * (1/2) ≤ 1
      unfold fallbackMouthOpen
      nlinarith
  · show Ok01 (max 0 (1 - fallbackSmile lc rc ul ll
      - max 0 (-cornerLiftOf lc rc ul ll * 10)))
    refine max0_mem _ ?_
    have h1 : (0:ℚ) ≤ fallbackSmile lc rc ul ll := hsmile.1
    linarith

lemma blendshape_inv (now : Int) (l : List Landmark) (bs : List Blendshape)
    (st st' : MachineState) (hbs : ValidBlendshapes bs)
    (hmov : Ok01 st.movementScore)
    (h : blendshapePath now l bs st = Except.ok st') :
    Inv01 st' ∧ st'.emotionScores.sad ≤ 1 := by
  cases h61 : l.get? 61 with
  | none =>
    simp only [blendshapePath, h61] at h
    exact Except.noConfusion h
  | some lc =>
  cases h291 : l.get? 291 with
  | none =>
    simp only [blendshapePath, h61, h291] at h
    exact Except.noConfusion h
  | some rc =>
  cases h13 : l.get? 13 with
  | none =>
    simp only [blendshapePath, h61, h291, h13] at h
    exact Except.noConfusion h
  | some ul =>
  cases h14 : l.get? 14 with
  | none =>
    simp only [blendshapePath, h61, h291, h13, h14] at h
    exact Except.noConfusion h
  | some ll =>
  cases h4 : l.get? 4 with
  | none =>
    simp only [blendshapePath, h61, h291, h13, h14, h4] at h
    exact Except.noConfusion h
  | some nt =>
  rw [blendshapePath_eq now l bs st lc rc ul ll nt h61 h291 h13 h14 h4,
    Except.ok.injEq] at h
  subst h
  obtain ⟨hsl1, hsl2⟩ := getBlendshape_mem "mouthSmileLeft" bs hbs
  obtain ⟨hsr1, hsr2⟩ := getBlendshape_mem "mouthSmileRight" bs hbs
  obtain ⟨hfl1, hfl2⟩ := getBlendshape_mem "mouthFrownLeft" bs hbs
  obtain ⟨hfr1, hfr2⟩ := getBlendshape_mem "mouthFrownRight" bs hbs
  obtain ⟨hbd1, hbd2⟩ := getBlendshape_mem "browDownLeft" bs hbs
  obtain ⟨hbd3, hbd4⟩ := getBlendshape_mem "browDownRight" bs hbs
  obtain ⟨hbi1, hbi2⟩ := getBlendshape_mem "browInnerUp" bs hbs
  obtain ⟨hbo1, hbo2⟩ := getBlendshape_mem "browOuterUpLeft" bs hbs
  obtain ⟨hbo3, hbo4⟩ := getBlendshape_mem "browOuterUpRight" bs hbs
  obtain ⟨hew1, hew2⟩ := getBlendshape_mem "eyeWideLeft" bs hbs
  obtain ⟨hew3, hew4⟩ := getBlendshape_mem "eyeWideRight" bs hbs
  obtain ⟨hjo1, hjo2⟩ := getBlendshape_mem "jawOpen" bs hbs
  have hback := clamp01_mem ((mouthWidthOf lc rc
    / (mouthHeightOf ul ll + 1/1000) - 5/2) / 2 + cornerLiftOf lc rc ul ll * 15)
  have hsmile : Ok01 (max ((getBlendshape "mouthSmileLeft" bs
      + getBlendshape "mouthSmileRight" bs) / 2) (backupSmile lc rc ul ll)) := by
    constructor
    · exact le_max_of_le_right hback.1
    · exact max_le (by linarith) hback.2
  have hhappy : Ok01 (min 1 (max ((getBlendshape "mouthSmileLeft" bs
      + getBlendshape "mouthSmileRight" bs) / 2)
      (backupSmile lc rc ul ll) * 2)) :=
    min1_mem _ (by nlinarith [hsmile.1])
  have hsad : Ok01 (min 1 ((getBlendshape "mouthFrownLeft" bs
      + getBlendshape "mouthFrownRight" bs) / 2 * (3/2)
      + (getBlendshape "browDownLeft" bs
        + getBlendshape "browDownRight" bs) / 2 * (1/2))) :=
    min1_mem _ (by nlinarith)
  have hsurp : Ok01 (min 1 ((getBlendshape "browInnerUp" bs
      + getBlendshape "browOuterUpLeft" bs
      + getBlendshape "browOuterUpRight" bs) / 3 * (4/5)
      + (getBlendshape "eyeWideLeft" bs
        + getBlendshape "eyeWideRight" bs) / 2 * (4/5)
      + getBlendshape "jawOpen" bs * (2/5))) :=
    min1_mem _ (by nlinarith)
  refine ⟨⟨hsmile, ⟨hjo1, hjo2⟩, ?_, hhappy, hsad.1, hsurp, ?_⟩, hsad.2⟩
  · show Ok01 (if GESTURE_FRAMES ≤ (pushNose now nt st.noseHistory).length
      then movementOf (pushNose now nt st.noseHistory) else st.movementScore)
    split
    · exact movementOf_mem _
    · exact hmov
  · refine max0_mem _ ?_
    have := hhappy.1
    have := hsad.1
    have := hsurp.1
    linarith

lemma headD_valid (r : FaceResults)
    (hv : ∀ bs ∈ r.faceBlendshapes, ValidBlendshapes bs) :
    ValidBlendshapes (r.faceBlendshapes.headD []) := by
  cases hb : r.faceBlendshapes with
  | nil => intro b hbmem; cases hbmem
  | cons a tl =>
    exact hv a (by rw [hb]; exact List.mem_cons_self a tl)

/-- C5 amended: after every successful extraction step on well-formed input,
`smileScore`, `mouthOpenScore`, `movementScore`, and the happy, surprised and
neutral emotion scores lie in [0,1], and `emotionScores.sad` is nonnegative;
on the blendshape path `sad` is moreover at most 1 (on the landmark-only
fallback path it can exceed 1, so the claimed upper bound fails there). -/
theorem C5_amended_signal_bounds (now : Int) (res : Option FaceResults)
    (st st' : MachineState) (hv : ValidInput res)
    (hmov : Ok01 st.movementScore)
    (h : processResults now res st = Except.ok st') :
    Inv01 st' ∧ (usedBlendshapes res = true → st'.emotionScores.sad ≤ 1) := by
  cases res with
  | none =>
    simp only [processResults, Except.ok.injEq] at h
    subst h
    exact ⟨zeroReset_inv st, fun _ => by norm_num [zeroResetSignals]⟩
  | some r =>
    cases hl : r.faceLandmarks.head? with
    | none =>
      simp only [processResults, hl, Except.ok.injEq] at h
      subst h
      exact ⟨zeroReset_inv st, fun _ => by norm_num [zeroResetSignals]⟩
    | some landmarks =>
      simp only [processResults, hl] at h
      by_cases hb : (r.faceBlendshapes.headD []).isEmpty = true
      · rw [if_pos hb] at h
        refine ⟨fallback_inv now landmarks st st' hmov h, fun hub => ?_⟩
        cases hfb : r.faceBlendshapes with
        | nil => simp [usedBlendshapes, hfb] at hub
        | cons a tl =>
          rw [hfb] at hb
          simp only [List.headD_cons, List.isEmpty_iff] at hb
          simp [usedBlendshapes, hfb, hb] at hub
      · rw [if_neg hb] at h
        have hvb : ValidBlendshapes (r.faceBlendshapes.headD []) :=
          headD_valid r hv.2
        have hres := blendshape_inv now landmarks (r.faceBlendshapes.headD [])
          st st' hvb hmov h
        exact ⟨hres.1, fun _ => hres.2⟩

/-- A full 292-point landmark list, all points at the origin except the two
mouth corners, which sit at the bottom of the unit square (corners far below
the mouth centre). -/
def exL5 : List Landmark :=
  ((List.replicate 292 (⟨0, 0⟩ : Landmark)).set 61 ⟨0, 1⟩).set 291 ⟨1, 1⟩

set_option maxRecDepth 8000 in
/-- C5 counterexample: on a well-formed landmark-only sample (all coordinates
in the unit square, no blendshapes) the extractor stores
`emotionScores.sad = 10`, far outside [0,1], refuting the claimed clamp. -/
theorem C5_counterexample :
    ValidInput (some ⟨[exL5], []⟩) ∧
    (processResults 0 (some ⟨[exL5], []⟩) initState).toOption.map
        (fun s => s.emotionScores.sad) = some 10 ∧
    ¬ ((10 : ℚ) ≤ 1) := by
  refine ⟨⟨?_, ?_⟩, ?_, by norm_num⟩
  · intro l hl
    rw [List.mem_singleton] at hl
    subst hl
    show ∀ p ∈ exL5, 0 ≤ p.x ∧ p.x ≤ 1 ∧ 0 ≤ p.y ∧ p.y ≤ 1
    decide
  · intro bs hbs
    cases hbs
  · have h1 : processResults 0 (some ⟨[exL5], []⟩) initState
        = detectSmileFromLandmarks 0 exL5 initState := rfl
    have h61 : exL5.get? 61 = some ⟨0, 1⟩ := rfl
    have h291 : exL5.get? 291 = some ⟨1, 1⟩ := rfl
    have h13 : exL5.get? 13 = some ⟨0, 0⟩ := rfl
    have h14 : exL5.get? 14 = some ⟨0, 0⟩ := rfl
    have h4 : exL5.get? 4 = some ⟨0, 0⟩ := rfl
    rw [h1, detectSmileFromLandmarks_eq 0 exL5 initState ⟨0, 1⟩ ⟨1, 1⟩ ⟨0, 0⟩
      ⟨0, 0⟩ ⟨0, 0⟩ h61 h291 h13 h14 h4]
    show some (max 0 (-cornerLiftOf ⟨0, 1⟩ ⟨1, 1⟩ ⟨0, 0⟩ ⟨0, 0⟩ * 10))
        = some (10 : ℚ)
    norm_num [cornerLiftOf, max_def]

/-- Witness for C5 on the no-face input: extraction succeeds with the zero
reset, whose fields satisfy the amended bounds. -/
theorem C5_witness :
    ValidInput (none : Option FaceResults) ∧
    Ok01 initState.movementScore ∧
    processResults 7 none initState = Except.ok (zeroResetSignals initState) ∧
    Inv01 (zeroResetSignals initState) ∧
    (usedBlendshapes none = true →
      (zeroResetSignals initState).emotionScores.sad ≤ 1) := by
  have hmov : Ok01 initState.movementScore := by
    constructor <;> norm_num [initState]
  have h := C5_amended_signal_bounds 7 none initState
    (zeroResetSignals initState) trivial hmov rfl
  exact ⟨trivial, hmov, rfl, h.1, h.2⟩

/-- C8 amended: the landmark backup inside the blendshape path uses
`clamp01((ratio − 2.5)/2 + lift×15)` (with mouth-open taken from the jawOpen
blendshape there), while the landmark-only fallback path uses the different
constants `clamp01((ratio − 2)/3 + lift×10)` together with mouth-open
`clamp01(height×5)`. -/
theorem C8_amended_landmark_estimators (now : Int) (l : List Landmark)
    (bs : List Blendshape) (st st1 st2 : MachineState)
    (lc rc ul ll nt : Landmark)
    (h61 : l.get? 61 = some lc) (h291 : l.get? 291 = some rc)
    (h13 : l.get? 13 = some ul) (h14 : l.get? 14 = some ll)
    (h4 : l.get? 4 = some nt) :
    (blendshapePath now l bs st = Except.ok st1 →
      st1.smileScore = max ((getBlendshape "mouthSmileLeft" bs
        + getBlendshape "mouthSmileRight" bs) / 2) (backupSmile lc rc ul ll) ∧
      st1.mouthOpenScore = getBlendshape "jawOpen" bs) ∧
    (detectSmileFromLandmarks now l st = Except.ok st2 →
      st2.smileScore = fallbackSmile lc rc ul ll ∧
      st2.mouthOpenScore = fallbackMouthOpen ul ll) := by
  constructor
  · intro h
    rw [blendshapePath_eq now l bs st lc rc ul ll nt h61 h291 h13 h14 h4,
      Except.ok.injEq] at h
    subst h
    exact ⟨rfl, rfl⟩
  · intro h
    rw [detectSmileFromLandmarks_eq now l st lc rc ul ll nt h61 h291 h13 h14 h4,
      Except.ok.injEq] at h
    subst h
    exact ⟨rfl, rfl⟩

/-- A full 292-point landmark list whose mouth landmarks give a mouth ratio
of 2.75 and zero corner lift, all coordinates in the unit square. -/
def exL8 : List Landmark :=
  ((((List.replicate 292 (⟨0, 0⟩ : Landmark)).set 61
    ⟨1/10, 3495/10000⟩).set 291 ⟨375/1000, 3495/10000⟩).set 13
    ⟨0, 3/10⟩).set 14 ⟨0, 399/1000⟩

set_option maxRecDepth 8000 in
/-- C8 counterexample: on the fallback path the computed smile score is 1/4,
while the formula claimed for it — `clamp01((ratio − 2.5)/2 + lift×15)`,
that is `backupSmile` — evaluates to 1/8 on the same four mouth landmarks. -/
theorem C8_counterexample :
    exL8.get? 61 = some ⟨1/10, 3495/10000⟩ ∧
    exL8.get? 291 = some ⟨375/1000, 3495/10000⟩ ∧
    exL8.get? 13 = some ⟨0, 3/10⟩ ∧
    exL8.get? 14 = some ⟨0, 399/1000⟩ ∧
    (detectSmileFromLandmarks 0 exL8 initState).toOption.map
        (fun s => s.smileScore) = some (1/4) ∧
    backupSmile ⟨1/10, 3495/10000⟩ ⟨375/1000, 3495/10000⟩ ⟨0, 3/10⟩
        ⟨0, 399/1000⟩ = 1/8 ∧
    ¬ ((1/4 : ℚ) = 1/8) := by
  have h61 : exL8.get? 61 = some ⟨1/10, 3495/10000⟩ := rfl
  have h291 : exL8.get? 291 = some ⟨375/1000, 3495/10000⟩ := rfl
  have h13 : exL8.get? 13 = some ⟨0, 3/10⟩ := rfl
  have h14 : exL8.get? 14 = some ⟨0, 399/1000⟩ := rfl
  have h4 : exL8.get? 4 = some ⟨0, 0⟩ := rfl
  refine ⟨h61, h291, h13, h14, ?_, ?_, by norm_num⟩
  · rw [detectSmileFromLandmarks_eq 0 exL8 initState ⟨1/10, 3495/10000⟩
      ⟨375/1000, 3495/10000⟩ ⟨0, 3/10⟩ ⟨0, 399/1000⟩ ⟨0, 0⟩
      h61 h291 h13 h14 h4]
    show some (fallbackSmile ⟨1/10, 3495/10000⟩ ⟨375/1000, 3495/10000⟩
        ⟨0, 3/10⟩ ⟨0, 399/1000⟩) = some ((1:ℚ)/4)
    norm_num [fallbackSmile, mouthWidthOf, mouthHeightOf, cornerLiftOf,
      clamp01, abs, max_def, min_def]
  · norm_num [backupSmile, mouthWidthOf, mouthHeightOf, cornerLiftOf,
      clamp01, abs, max_def, min_def]

set_option maxRecDepth 8000 in
/-- Witness for C8 on the concrete fallback sample. -/
theorem C8_witness :
    exL8.get? 61 = some ⟨1/10, 3495/10000⟩ ∧
    exL8.get? 291 = some ⟨375/1000, 3495/10000⟩ ∧
    exL8.get? 13 = some ⟨0, 3/10⟩ ∧
    exL8.get? 14 = some ⟨0, 399/1000⟩ ∧
    exL8.get? 4 = some ⟨0, 0⟩ ∧
    detectSmileFromLandmarks 3 exL8 initState = Except.ok
      ((detectSmileFromLandmarks 3 exL8 initState).toOption.getD initState) ∧
    ((detectSmileFromLandmarks 3 exL8 initState).toOption.getD
        initState).smileScore
      = fallbackSmile ⟨1/10, 3495/10000⟩ ⟨375/1000, 3495/10000⟩ ⟨0, 3/10⟩
          ⟨0, 399/1000⟩ ∧
    ((detectSmileFromLandmarks 3 exL8 initState).toOption.getD
        initState).mouthOpenScore
      = fallbackMouthOpen ⟨0, 3/10⟩ ⟨0, 399/1000⟩ := by
  have h61 : exL8.get? 61 = some ⟨1/10, 3495/10000⟩ := rfl
  have h291 : exL8.get? 291 = some ⟨375/1000, 3495/10000⟩ := rfl
  have h13 : exL8.get? 13 = some ⟨0, 3/10⟩ := rfl
  have h14 : exL8.get? 14 = some ⟨0, 399/1000⟩ := rfl
  have h4 : exL8.get? 4 = some ⟨0, 0⟩ := rfl
  have heq := detectSmileFromLandmarks_eq 3 exL8 initState ⟨1/10, 3495/10000⟩
    ⟨375/1000, 3495/10000⟩ ⟨0, 3/10⟩ ⟨0, 399/1000⟩ ⟨0, 0⟩
    h61 h291 h13 h14 h4
  have hOk : detectSmileFromLandmarks 3 exL8 initState = Except.ok
      ((detectSmileFromLandmarks 3 exL8 initState).toOption.getD initState) := by
    rw [heq]
    rfl
  have happ := (C8_amended_landmark_estimators 3 exL8 [] initState initState
    ((detectSmileFromLandmarks 3 exL8 initState).toOption.getD initState)
    ⟨1/10, 3495/10000⟩ ⟨375/1000, 3495/10000⟩ ⟨0, 3/10⟩ ⟨0, 399/1000⟩ ⟨0, 0⟩
    h61 h291 h13 h14 h4).2 hOk
  exact ⟨h61, h291, h13, h14, h4, hOk, happ.1, happ.2⟩

end Attune
